import Mathlib

/-!
Shallow embedding of `src/openscad_server.py` (an MCP server exposing
OpenSCAD reference lookups and basic file operations in the working
directory), together with proofs about the embedded operations.

Modelling conventions:
* The working directory is an association list `FS` from filename to file
  content; `List.lookup` models `os.path.exists` / `open(..., 'r')`.
* Python strings are Lean `String`s.  `str.strip`, `str.lower`, `str.upper`,
  `str.capitalize` and `str.endswith` are modelled character-exactly for the
  ASCII strings this server manipulates (`pyStrip`, `pyLower`, `pyUpper`,
  `pyCapitalize`, `endswith`).
* Every handler that contains a `try/except Exception` block takes an extra
  `fault : Option String` argument: `some e` models an arbitrary I/O
  exception whose `str(e)` is `e` being raised inside the `try` block, and
  `none` models the non-exceptional run.
* `open(filename, 'a')` follows Python semantics: appending to a missing
  file silently creates it (the server's `FileNotFoundError` handler in
  `append_to_file` is unreachable for a plain filename inside an existing
  working directory).
* `glob.glob` is modelled by `globExpand`: fnmatch-style matching with the
  `*` and `?` wildcards and the rule that hidden names (leading dot) are
  matched only by patterns that themselves start with a dot.  Character
  classes are never produced by this server's patterns.
-/

namespace Scad

/-- Python ASCII whitespace recognised by `str.strip()` (space, tab,
newline, carriage return, vertical tab, form feed). -/
def isPySpace (c : Char) : Bool :=
  c == ' ' || c == '\t' || c == '\n' || c == '\r' ||
  c == Char.ofNat 11 || c == Char.ofNat 12

/-- ASCII case table of Python `str.lower()`. -/
def asciiLowerTable : List (Char × Char) :=
  [('A','a'), ('B','b'), ('C','c'), ('D','d'), ('E','e'), ('F','f'), ('G','g'),
   ('H','h'), ('I','i'), ('J','j'), ('K','k'), ('L','l'), ('M','m'), ('N','n'),
   ('O','o'), ('P','p'), ('Q','q'), ('R','r'), ('S','s'), ('T','t'), ('U','u'),
   ('V','v'), ('W','w'), ('X','x'), ('Y','y'), ('Z','z')]

/-- ASCII case table of Python `str.upper()`. -/
def asciiUpperTable : List (Char × Char) :=
  [('a','A'), ('b','B'), ('c','C'), ('d','D'), ('e','E'), ('f','F'), ('g','G'),
   ('h','H'), ('i','I'), ('j','J'), ('k','K'), ('l','L'), ('m','M'), ('n','N'),
   ('o','O'), ('p','P'), ('q','Q'), ('r','R'), ('s','S'), ('t','T'), ('u','U'),
   ('v','V'), ('w','W'), ('x','X'), ('y','Y'), ('z','Z')]

/-- Lower-case one character (ASCII; other characters are unchanged). -/
def lowerChar (c : Char) : Char := (List.lookup c asciiLowerTable).getD c

/-- Upper-case one character (ASCII; other characters are unchanged). -/
def upperChar (c : Char) : Char := (List.lookup c asciiUpperTable).getD c

/-- Strip Python whitespace from both ends of a character list. -/
def stripData (l : List Char) : List Char :=
  ((l.dropWhile isPySpace).reverse.dropWhile isPySpace).reverse

/-- Python `str.strip()`. -/
def pyStrip (s : String) : String := ⟨stripData s.data⟩

/-- Python `str.lower()` (ASCII). -/
def pyLower (s : String) : String := ⟨s.data.map lowerChar⟩

/-- Python `str.upper()` (ASCII). -/
def pyUpper (s : String) : String := ⟨s.data.map upperChar⟩

/-- Python `str.capitalize()`: first character upper-cased, the rest
lower-cased. -/
def pyCapitalize (s : String) : String :=
  match s.data with
  | [] => ""
  | c :: rest => ⟨upperChar c :: rest.map lowerChar⟩

/-- Python `s.endswith(suffix)`. -/
def endswith (s suffix : String) : Bool := suffix.data.isSuffixOf s.data

/-- The working directory: an association list filename ↦ content. -/
abbrev FS := List (String × String)

/-- Write `content` to `filename` (mode `'w'`): replace the first binding
for `filename`, or create one. -/
def fsSet : FS → String → String → FS
  | [], fn, c => [(fn, c)]
  | (k, v) :: rest, fn, c =>
      if k = fn then (fn, c) :: rest else (k, v) :: fsSet rest fn c

/-- fnmatch-style glob matching with the `*` and `?` wildcards: `*`
matches any character sequence (the rest of the pattern must match some
suffix of the name), `?` matches any single character, anything else
matches itself. -/
def globMatch : List Char → List Char → Bool
  | [], s => s.isEmpty
  | '*' :: ps, s => s.tails.any fun t => globMatch ps t
  | _ :: _, [] => false
  | p :: ps, c :: cs => (p == '?' || p == c) && globMatch ps cs

/-- A name is hidden when it starts with a dot. -/
def hiddenName (s : String) : Bool :=
  match s.data with
  | '.' :: _ => true
  | _ => false

/-- Python `glob.glob(pattern)` over the names of the working directory:
hidden names are matched only by patterns starting with a dot. -/
def globExpand (pattern : String) (names : List String) : List String :=
  names.filter fun n =>
    (!hiddenName n || hiddenName pattern) && globMatch pattern.data n.data

/-- The glob pattern built by `list_files`: the f-string `*.` followed by
the interpolated extension when `file_extension.strip()` is truthy, else
`*`.  Note that the raw, untrimmed extension is interpolated. -/
def globPattern (file_extension : String) : String :=
  if pyStrip file_extension = "" then "*" else "*." ++ file_extension

/-- The `.scad` selection of `list_files`:
`[f for f in files if f.endswith('.scad')]`. -/
def scadFilesOf (files : List String) : List String :=
  files.filter fun f => endswith f ".scad"

/-- The non-`.scad` selection of `list_files`:
`[f for f in files if not f.endswith('.scad')]`. -/
def otherFilesOf (files : List String) : List String :=
  files.filter fun f => !(endswith f ".scad")

/-- `list_files(file_extension)` from `src/openscad_server.py`. -/
def list_files (fs : FS) (file_extension : String) (fault : Option String) :
    String :=
  match fault with
  | some e => "❌ Error: Could not list files. " ++ e
  | none =>
    match globExpand (globPattern file_extension) (fs.map Prod.fst) with
    | [] =>
        "📂 No files found with pattern '" ++ globPattern file_extension ++ "'."
    | _ :: _ =>
        let files := globExpand (globPattern file_extension) (fs.map Prod.fst)
        let scad_files := scadFilesOf files
        let other_files := otherFilesOf files
        (if scad_files.isEmpty then "📂 Files in directory:"
         else "📂 Files in directory:" ++ "\n\n📐 OpenSCAD Files:\n- " ++
              String.intercalate "\n- " scad_files) ++
        (if other_files.isEmpty then ""
         else "\n\n📄 Other Files:\n- " ++ String.intercalate "\n- " other_files)

/-- `read_file(filename)` from `src/openscad_server.py`. -/
def read_file (fs : FS) (filename : String) (fault : Option String) : String :=
  if pyStrip filename = "" then "❌ Error: Filename is required."
  else
    match List.lookup filename fs with
    | none => "❌ Error: File '" ++ filename ++ "' not found."
    | some content =>
      match fault with
      | some e => "❌ Error: Could not read file. " ++ e
      | none =>
        ("📄 File: " ++ filename ++ " (" ++ toString content.length ++
         " characters)" ++
         (if endswith filename ".scad" then " 📐 OpenSCAD" else "")) ++
        "\n---\n" ++ content ++ "\n---"

/-- The overwrite flag of `write_file`:
`should_overwrite = overwrite.strip().lower() == 'true'`. -/
def shouldOverwrite (overwrite : String) : Bool :=
  pyLower (pyStrip overwrite) == "true"

/-- `write_file(filename, content, overwrite)` from `src/openscad_server.py`.
Returns the response text and the directory afterwards. -/
def write_file (fs : FS) (filename content overwrite : String)
    (fault : Option String) : String × FS :=
  if pyStrip filename = "" then ("❌ Error: Filename is required.", fs)
  else if (List.lookup filename fs).isSome && !(shouldOverwrite overwrite) then
    ("⚠️ Error: File '" ++ filename ++
     "' already exists. To overwrite, set overwrite to 'true'.", fs)
  else
    match fault with
    | some e => ("❌ Error: Could not write to file. " ++ e, fs)
    | none =>
      ("✅ Success: File '" ++ filename ++ "'" ++
       (if endswith filename ".scad" then " 📐 OpenSCAD" else "") ++
       " was " ++
       (if shouldOverwrite overwrite then "overwritten" else "created") ++ ".",
       fsSet fs filename content)

/-- `append_to_file(filename, content)` from `src/openscad_server.py`.
`open(filename, 'a')` creates the file when it is missing (Python append
semantics), so the handler's `except FileNotFoundError` branch is
unreachable for plain names in the working directory and does not appear. -/
def append_to_file (fs : FS) (filename content : String)
    (fault : Option String) : String × FS :=
  if pyStrip filename = "" ∨ pyStrip content = "" then
    ("❌ Error: Both filename and content are required.", fs)
  else
    match fault with
    | some e => ("❌ Error: Could not append to file. " ++ e, fs)
    | none =>
      ("✅ Success: Content appended to '" ++ filename ++ "'" ++
       (if endswith filename ".scad" then " 📐 OpenSCAD" else "") ++ ".",
       fsSet fs filename
         (((List.lookup filename fs).getD "") ++ "\n" ++ content))

/-- The module-level constant `SCAD_SYNTAX_RULES` (verbatim; literal braces
are written with escapes). -/
def SCAD_SYNTAX_RULES : String :=
  "\n📝 OpenSCAD Language: Foundational Syntax and Rules\n\nI. GENERAL LANGUAGE CHARACTERISTICS\nOpenSCAD is a text-based, programmatic solid 3D CAD modeler, often described as \"The Programmers Solid 3D CAD Modeller\". The language is primarily declarative and utilizes modules (procedures) and functions (mathematical calculations) to build complex models.\n\nCore Syntax Elements:\n• Variable Assignment: var = value; (valid in any scope since version 2015.03)\n• Conditional Assignment: var = condition? value_if_true : value_if_false;\n• Function Definition: function name(arg1, arg2) = expression;\n• Module Definition: module name(arg1, arg2) \x7b ... \x7d\n• Import: include <file.scad> (copies global variables)\n• Import: use <file.scad> (modules/functions only)\n\nScope and Variable Rules:\n• Immutability/Overriding: Variables act like override-able constants\n• Scope Restriction: Assignments don't leak to outer scopes\n• Last Assignment Rule: Last assignment applies everywhere in scope\n• Case Sensitivity: Function/module names are case sensitive\n\nII. FLOW CONTROL SYNTAX\n• Conditional: if(condition1) \x7b ... \x7d else if(condition2) \x7b ... \x7d else \x7b ... \x7d\n• For Loop (Range): for (i = [start : increment : end]) \x7b ... \x7d\n• For Loop (List): for (i = [list_of_values]) \x7b ... \x7d\n• Intersection Loop: intersection_for (i = [1:6]) \x7b ... \x7d\n• List Comprehensions: list = [ for (i = range) if (condition) i ];\n"

/-- The module-level constant `SCAD_PRIMITIVES` (verbatim). -/
def SCAD_PRIMITIVES : String :=
  "\n🛠️ OpenSCAD Comprehensive Feature Reference - Primitives\n\n3D PRIMITIVES:\n• cube(size, center) or cube([w,d,h], center) - Rectangular prism\n• sphere(r=radius) or sphere(d=diameter) - Spherical object\n• cylinder(h, r|d, center) or cylinder(h, r1|d1, r2|d2, center) - Cylinder/frustum\n• polyhedron(points, faces, convexity) - Complex 3D shape from points/faces\n\n2D PRIMITIVES (lie in XY plane, require extrusion):\n• circle(r=radius) or circle(d=diameter) - Planar circle\n• square(size, center) or square([w,h], center) - Square/rectangle\n• polygon([points], [paths]) - Planar shape from points\n• text(t, size, font,...) - 2D text geometry (requires extrusion)\n• projection(cut=true) - Projects 3D object to XY plane\n"

/-- The module-level constant `SCAD_OPERATIONS` (verbatim; literal braces
are written with escapes). -/
def SCAD_OPERATIONS : String :=
  "\n⚙️ OpenSCAD CSG Operations and Transformations\n\nCONSTRUCTIVE SOLID GEOMETRY (CSG):\n• union() \x7b obj1; obj2; \x7d - Combines objects into single unified object\n• difference() \x7b base_obj; subtract_obj1; subtract_obj2; \x7d - Removes subsequent objects from first\n• intersection() \x7b obj1; obj2; \x7d - Creates object from shared volume only\n\nTRANSFORMATIONS:\n• translate([x,y,z]) \x7b ... \x7d - Moves child object by vector\n• rotate([x,y,z]) \x7b ... \x7d or rotate(angle, [x,y,z]) \x7b ... \x7d - Rotates child object\n• scale([x,y,z]) \x7b ... \x7d - Resizes along X, Y, and Z axes\n• resize([x,y,z], auto=false, convexity) - Non-uniform scaling to fit dimensions\n• mirror([x,y,z]) \x7b ... \x7d - Mirrors across plane defined by normal vector\n• multmatrix(m) \x7b ... \x7d - Applies custom 4x4 transformation matrix\n\nGEOMETRY OPERATIONS:\n• hull() \x7b obj1; obj2; \x7d - Creates convex hull of all child objects\n• minkowski(convexity) \x7b obj1; obj2; \x7d - Creates Minkowski sum\n• offset(r|delta, chamfer) - Offsets edges of 2D shape or 3D surface\n• linear_extrude(height, twist,...) - Extrudes 2D shape along straight path\n• rotate_extrude(angle,...) - Rotates 2D shape around Z-axis\n• surface(file=\"...\", center, convexity) - Creates 3D surface from height-map\n"

/-- The module-level constant `SCAD_SPECIAL_VARS` (verbatim; literal braces
are written with escapes). -/
def SCAD_SPECIAL_VARS : String :=
  "\n🎛️ OpenSCAD Special Variables and Modifiers\n\nCIRCLE RESOLUTION VARIABLES:\n• $fn = 0 - Fragments Number (sets segment count, overrides $fa/$fs if >0)\n• $fa = 12 - Fragment Angle (minimum angle in degrees for segments)\n• $fs = 2 - Fragment Size (minimum size for line segments)\n\nDEBUGGING AND RENDERING MODIFIERS:\n• # - Debug/Highlight: Shows object in transparent pink for visualization\n• % - Background/Transparent: Shows in gray but ignores for CSG operations\n• ! - Root/Show Only: Uses marked subtree as temporary design root\n• * - Disable: Completely ignores marked subtree\n\nOTHER SPECIAL VARIABLES:\n• $children - Number of child nodes passed to current module\n• $preview - Boolean: true in F5 preview, false in F6 render\n• $t - Current animation step value for animations\n\nUTILITY FUNCTIONS:\n• echo(\"Variable Value:\", my_var) - Diagnostic output to console\n• assert(value > 0, \"Value must be positive\") - Condition checking\n• children(0) - Returns first child object passed to module\n• render() \x7b complicated_object; \x7d - Forces rendering operation\n"

/-- The module-level constant `SCAD_BEST_PRACTICES` (verbatim). -/
def SCAD_BEST_PRACTICES : String :=
  "\n🏆 OpenSCAD Best Practices and Common Patterns\n\nPARAMETERIZED DESIGN:\n• Use variables for all dimensions to enable easy modifications\n• Group related parameters at the top of files\n• Use meaningful variable names (wall_thickness vs wt)\n\nMODULE ORGANIZATION:\n• Break complex designs into logical modules\n• Use descriptive module names that indicate purpose\n• Document module parameters and expected behavior\n\nPERFORMANCE OPTIMIZATION:\n• Use $fn sparingly - high values dramatically increase render time\n• Prefer $fa and $fs for adaptive resolution\n• Use render() for complex recursive operations\n• Avoid excessive difference() operations with many children\n\nDEBUGGING TECHNIQUES:\n• Use # modifier to visualize intermediate steps\n• Employ % to see reference geometry without affecting CSG\n• Use echo() to output variable values during rendering\n• Test modules in isolation before integration\n\nSTL EXPORT CONSIDERATIONS:\n• Ensure manifold geometry (no holes or non-solid objects)\n• Check normals are consistent for 3D printing\n• Use sufficient resolution for intended print size\n• Verify dimensions match expected real-world units\n"

/-- The `SCAD_CATEGORIES` dict, in insertion order. -/
def SCAD_CATEGORIES : List (String × String) :=
  [("syntax", SCAD_SYNTAX_RULES),
   ("primitives", SCAD_PRIMITIVES),
   ("operations", SCAD_OPERATIONS),
   ("variables", SCAD_SPECIAL_VARS),
   ("bestpractices", SCAD_BEST_PRACTICES),
   ("3d", "3D Primitives: cube(), sphere(), cylinder(), polyhedron()"),
   ("2d", "2D Primitives: circle(), square(), polygon(), text()"),
   ("transformations", "Transformations: translate(), rotate(), scale(), mirror(), resize()"),
   ("boolean", "Boolean Operations: union(), difference(), intersection()"),
   ("extrusions", "Extrusions: linear_extrude(), rotate_extrude()")]

/-- The `category_names` display-title dict inside `get_scad_reference`. -/
def category_names : List (String × String) :=
  [("syntax", "📝 Syntax and Rules"),
   ("primitives", "🛠️ Primitives"),
   ("operations", "⚙️ Operations and Transformations"),
   ("variables", "🎛️ Special Variables and Modifiers"),
   ("bestpractices", "🏆 Best Practices")]

/-- The quick-tier key list tested by the `elif` branch of
`get_scad_reference`. -/
def quickTierKeys : List String :=
  ["3d", "2d", "transformations", "boolean", "extrusions"]

/-- The category menu returned by `get_scad_reference` on empty input,
built line by line as in the source. -/
def menuText : String :=
  "📚 Available OpenSCAD Reference Categories:\n\n" ++
  "• syntax - Language syntax and rules\n" ++
  "• primitives - 2D and 3D primitive shapes\n" ++
  "• operations - CSG operations and transformations\n" ++
  "• variables - Special variables and modifiers\n" ++
  "• bestpractices - Design patterns and optimization\n" ++
  "• 3d - Quick 3D primitive reference\n" ++
  "• 2d - Quick 2D primitive reference\n" ++
  "• transformations - Quick transformation reference\n" ++
  "• boolean - Quick boolean operations reference\n" ++
  "• extrusions - Quick extrusion operations reference\n"

/-- `get_scad_syntax()` from `src/openscad_server.py`. -/
def get_scad_syntax : String := SCAD_SYNTAX_RULES

/-- `get_scad_reference(category)` from `src/openscad_server.py`.
`cat = category.strip().lower()` is inlined as `pyLower (pyStrip category)`.
In the (dead) quick-tier branch Python would evaluate
`SCAD_CATEGORIES[cat]`, which is modelled with `getD ""`; the branch is
reachable only when the lookup failed, and is proved unreachable below. -/
def get_scad_reference (category : String) : String :=
  match List.lookup (pyLower (pyStrip category)) SCAD_CATEGORIES with
  | some body =>
      ((List.lookup (pyLower (pyStrip category)) category_names).getD
        (pyUpper (pyLower (pyStrip category)))) ++ "\n" ++ body
  | none =>
      if quickTierKeys.contains (pyLower (pyStrip category)) then
        "🔧 " ++ pyUpper (pyLower (pyStrip category)) ++ " Functions:\n" ++
        ((List.lookup (pyLower (pyStrip category)) SCAD_CATEGORIES).getD "")
      else if pyLower (pyStrip category) = "" then menuText
      else
        "❌ Category '" ++ pyLower (pyStrip category) ++
        "' not found. Available: " ++
        String.intercalate ", " (SCAD_CATEGORIES.map Prod.fst)

/-- The `quick_reference` dict inside `scad_quick_help`, in insertion order
(literal braces written with escapes). -/
def quick_reference : List (String × String) :=
  [("cube", "cube(size, center) - Creates cube/rectangular prism\nExample: cube([10,20,5], center=true);"),
   ("sphere", "sphere(r=radius) or sphere(d=diameter) - Creates sphere\nExample: sphere(r=10, $fn=50);"),
   ("cylinder", "cylinder(h, r|d, center) - Creates cylinder/frustum\nExample: cylinder(h=20, r1=10, r2=5, center=true);"),
   ("translate", "translate([x,y,z]) \x7b ... \x7d - Moves child object\nExample: translate([5,0,0]) cube(10);"),
   ("rotate", "rotate([x,y,z]) \x7b ... \x7d - Rotates child object\nExample: rotate([0,0,45]) cube(10);"),
   ("difference", "difference() \x7b base; subtract1; subtract2; \x7d - Boolean subtraction\nExample: difference() \x7b cube(10); cylinder(h=15, r=3); \x7d"),
   ("module", "module name(params) \x7b ... \x7d - Defines reusable component\nExample: module box(size) \x7b cube(size); \x7d"),
   ("extrude", "linear_extrude(height, twist, ...) \x7b 2d_shape; \x7d - Extrudes 2D to 3D\nExample: linear_extrude(10) circle(5);"),
   ("variables", "Special variables: $fn, $fa, $fs for resolution\nModifiers: # (debug), % (background), ! (root), * (disable)")]

/-- The topic list returned by `scad_quick_help` on blank input. -/
def topicListText : String :=
  "🔧 Quick OpenSCAD Reference - Available topics:\n- " ++
  String.intercalate "\n- " (quick_reference.map Prod.fst)

/-- `scad_quick_help(topic)` from `src/openscad_server.py`.  Note that the
match branch capitalizes the raw `topic` and the not-found branch echoes
the raw `topic`, while the lookup uses `topic.strip().lower()`. -/
def scad_quick_help (topic : String) : String :=
  if pyStrip topic = "" then topicListText
  else
    match List.lookup (pyLower (pyStrip topic)) quick_reference with
    | some snippet => "🔧 " ++ pyCapitalize topic ++ ":\n" ++ snippet
    | none =>
        "❌ Topic '" ++ topic ++ "' not found. Available: " ++
        String.intercalate ", " (quick_reference.map Prod.fst)

/-- Outcome classes distinguished by the response-marker convention. -/
inductive Outcome | ok | warn | err
deriving DecidableEq

/-- Classify a response by its leading character: `❌` marks an error,
`⚠` (first character of `⚠️`) marks a warning, anything else is a
non-failure response. -/
def markerOf (s : String) : Outcome :=
  match s.data with
  | [] => Outcome.ok
  | c :: _ =>
      if c = '❌' then Outcome.err
      else if c = '⚠' then Outcome.warn
      else Outcome.ok

/-- Number of (possibly overlapping) occurrences of `pat` as a contiguous
substring, counted at every start position. -/
def countOccs (pat : List Char) : List Char → Nat
  | [] => if pat.isPrefixOf ([] : List Char) then 1 else 0
  | c :: rest =>
      (if pat.isPrefixOf (c :: rest) then 1 else 0) + countOccs pat rest

/-- Outcome classes of a `scad_quick_help` response: the (unique) topic
list, a not-found error, or a topic match. -/
inductive QhCase | topicList | notFound | found
deriving DecidableEq

/-- Classify a `scad_quick_help` response from the text alone. -/
def qhCase (s : String) : QhCase :=
  if s = topicListText then QhCase.topicList
  else if ("❌".data).isPrefixOf s.data then QhCase.notFound
  else QhCase.found

/-- Modelled from the spec: "compares case-insensitively equal to the
literal \"true\"" — case-insensitive string equality, to be compared with
the code's `shouldOverwrite`. -/
def specCaseInsensitiveEq (a b : String) : Bool :=
  pyLower a == pyLower b

/-! ### Helper lemmas -/

theorem data_append (a b : String) : (a ++ b).data = a.data ++ b.data := rfl

theorem lookup_pair_mem {α β : Type} [BEq α] [LawfulBEq α] {a : α} {b : β} :
    ∀ {l : List (α × β)}, List.lookup a l = some b → (a, b) ∈ l
  | [], h => by simp [List.lookup] at h
  | (k, v) :: tl, h => by
      by_cases hk : a = k
      · subst hk
        rw [List.lookup, beq_self_eq_true] at h
        cases h
        exact List.mem_cons_self _ _
      · have hf : (a == k) = false := beq_false_of_ne hk
        rw [List.lookup, hf] at h
        exact List.mem_cons_of_mem _ (lookup_pair_mem h)

theorem lookup_mem_fst {α β : Type} [BEq α] [LawfulBEq α] {a : α} {b : β}
    {l : List (α × β)} (h : List.lookup a l = some b) : a ∈ l.map Prod.fst :=
  List.mem_map_of_mem Prod.fst (lookup_pair_mem h)

theorem str_head_ne (c d : Char) {s t : String} (hs : s.data.head? = some c)
    (ht : t.data.head? = some d) (hcd : c ≠ d) : s ≠ t := by
  intro h
  subst h
  rw [hs] at ht
  exact hcd (Option.some.inj ht)

theorem dropWhile_head_false {α : Type} {p : α → Bool} :
    ∀ {l : List α} {a : α} {as : List α}, l.dropWhile p = a :: as → p a = false
  | [], _, _, h => by simp at h
  | b :: t, a, as, h => by
      rw [List.dropWhile] at h
      cases hb : p b with
      | false => rw [hb] at h; cases h; exact hb
      | true => rw [hb] at h; exact dropWhile_head_false h

theorem dropWhile_idem {α : Type} (p : α → Bool) (l : List α) :
    (l.dropWhile p).dropWhile p = l.dropWhile p := by
  cases h : l.dropWhile p with
  | nil => rfl
  | cons a as => rw [List.dropWhile, dropWhile_head_false h]

theorem dropWhile_suffix_self {α : Type} (p : α → Bool) :
    ∀ l : List α, l.dropWhile p <:+ l
  | [] => ⟨[], rfl⟩
  | a :: t => by
      rw [List.dropWhile]
      cases hb : p a with
      | false => exact ⟨[], rfl⟩
      | true => exact (dropWhile_suffix_self p t).trans (List.suffix_cons a t)

theorem getLast?_of_suffix {α : Type} {l₁ l₂ : List α} (h : l₁ <:+ l₂)
    (hne : l₁ ≠ []) : l₂.getLast? = l₁.getLast? := by
  obtain ⟨w, rfl⟩ := h
  rw [List.getLast?_append]
  cases hg : l₁.getLast? with
  | none => exact absurd (List.getLast?_eq_none_iff.mp hg) hne
  | some c => rfl

theorem stripData_head_false {l : List Char} {a : Char} {as : List Char}
    (h : stripData l = a :: as) : isPySpace a = false := by
  unfold stripData at h
  have hh : (((l.dropWhile isPySpace).reverse.dropWhile isPySpace).reverse).head? =
      some a := by rw [h]; rfl
  rw [List.head?_reverse] at hh
  have hsuf := dropWhile_suffix_self isPySpace (l.dropWhile isPySpace).reverse
  have hne : (l.dropWhile isPySpace).reverse.dropWhile isPySpace ≠ [] := by
    intro hn
    rw [hn] at hh
    simp at hh
  have hlast := getLast?_of_suffix hsuf hne
  rw [hh] at hlast
  rw [List.getLast?_reverse] at hlast
  cases hd : l.dropWhile isPySpace with
  | nil => rw [hd] at hlast; simp at hlast
  | cons b bs =>
      rw [hd] at hlast
      simp at hlast
      rw [hlast] at hd
      exact dropWhile_head_false hd

theorem stripData_idem (l : List Char) : stripData (stripData l) = stripData l := by
  have h1 : (stripData l).dropWhile isPySpace = stripData l := by
    cases h : stripData l with
    | nil => rfl
    | cons a as => rw [List.dropWhile, stripData_head_false h]
  show ((((stripData l).dropWhile isPySpace).reverse.dropWhile isPySpace).reverse) =
      stripData l
  rw [h1]
  show ((((l.dropWhile isPySpace).reverse.dropWhile isPySpace).reverse).reverse.dropWhile
      isPySpace).reverse = stripData l
  rw [List.reverse_reverse, dropWhile_idem]
  rfl

theorem lowerChar_isPySpace (c : Char) : isPySpace (lowerChar c) = isPySpace c := by
  unfold lowerChar
  cases h : List.lookup c asciiLowerTable with
  | none => rfl
  | some d =>
      have hm : (c, d) ∈ asciiLowerTable := lookup_pair_mem h
      have key : ∀ p ∈ asciiLowerTable, isPySpace p.2 = isPySpace p.1 := by decide
      exact key (c, d) hm

theorem lowerChar_fixed {c : Char} (h : List.lookup c asciiLowerTable = none) :
    lowerChar c = c := by
  unfold lowerChar
  rw [h]
  rfl

theorem lowerChar_idem (c : Char) : lowerChar (lowerChar c) = lowerChar c := by
  cases h : List.lookup c asciiLowerTable with
  | none => rw [lowerChar_fixed h, lowerChar_fixed h]
  | some d =>
      have hm : (c, d) ∈ asciiLowerTable := lookup_pair_mem h
      have key : ∀ p ∈ asciiLowerTable, lowerChar p.2 = p.2 := by decide
      have hc : lowerChar c = d := by unfold lowerChar; rw [h]; rfl
      rw [hc]
      exact key (c, d) hm

theorem stripData_map_lower (l : List Char) :
    stripData (l.map lowerChar) = (stripData l).map lowerChar := by
  have hp : (isPySpace ∘ lowerChar) = isPySpace := funext lowerChar_isPySpace
  unfold stripData
  rw [List.dropWhile_map, hp, ← List.map_reverse, List.dropWhile_map, hp,
    ← List.map_reverse]

theorem pyStrip_pyLower (s : String) :
    pyStrip (pyLower s) = pyLower (pyStrip s) := by
  show String.mk (stripData ((s.data).map lowerChar)) =
      String.mk ((stripData s.data).map lowerChar)
  rw [stripData_map_lower]

theorem pyStrip_idem (s : String) : pyStrip (pyStrip s) = pyStrip s := by
  show String.mk (stripData (stripData s.data)) = String.mk (stripData s.data)
  rw [stripData_idem]

theorem pyLower_idem (s : String) : pyLower (pyLower s) = pyLower s := by
  show String.mk (((s.data).map lowerChar).map lowerChar) =
      String.mk ((s.data).map lowerChar)
  have hcomp : lowerChar ∘ lowerChar = lowerChar := funext lowerChar_idem
  rw [List.map_map, hcomp]

theorem pyLower_eq_empty {s : String} : pyLower s = "" ↔ s = "" := by
  constructor
  · intro h
    have hd : (s.data).map lowerChar = [] := congrArg String.data h
    have : s.data = [] := List.map_eq_nil_iff.mp hd
    cases s
    simp_all
  · intro h; subst h; rfl

theorem scad_categories_key_cases {c body : String}
    (h : List.lookup c SCAD_CATEGORIES = some body) :
    c = "syntax" ∨ c = "primitives" ∨ c = "operations" ∨ c = "variables" ∨
      c = "bestpractices" ∨ c = "3d" ∨ c = "2d" ∨ c = "transformations" ∨
      c = "boolean" ∨ c = "extrusions" := by
  have hm := lookup_mem_fst h
  simpa [SCAD_CATEGORIES] using hm

theorem markerOf_title_branch {c body : String}
    (h : List.lookup c SCAD_CATEGORIES = some body) :
    markerOf (((List.lookup c category_names).getD (pyUpper c)) ++ "\n" ++ body)
      = Outcome.ok := by
  rcases scad_categories_key_cases h with
    rfl | rfl | rfl | rfl | rfl | rfl | rfl | rfl | rfl | rfl <;> rfl

theorem toolhead_title_branch {c body : String}
    (h : List.lookup c SCAD_CATEGORIES = some body) :
    ("🔧".data.isPrefixOf
        ((((List.lookup c category_names).getD (pyUpper c)) ++ "\n" ++
          body)).data) = false := by
  rcases scad_categories_key_cases h with
    rfl | rfl | rfl | rfl | rfl | rfl | rfl | rfl | rfl | rfl <;> rfl

theorem normalized_fixed (t : String) :
    pyStrip (pyLower (pyStrip t)) = pyLower (pyStrip t) := by
  rw [pyStrip_pyLower, pyStrip_idem]

theorem normalized_lower_fixed (t : String) :
    pyLower (pyStrip (pyLower (pyStrip t))) = pyLower (pyStrip t) := by
  rw [normalized_fixed, pyLower_idem]

theorem normalized_ne_empty {t : String} (h : ¬ pyStrip t = "") :
    ¬ pyStrip (pyLower (pyStrip t)) = "" := by
  rw [normalized_fixed]
  intro hz
  exact h (pyLower_eq_empty.mp hz)

theorem found_ne_topicList {t snip : String}
    (h : List.lookup (pyLower (pyStrip t)) quick_reference = some snip) :
    ("🔧 " ++ pyCapitalize t ++ ":\n" ++ snip) ≠ topicListText := by
  intro he
  have hsuf : snip.data <:+ topicListText.data := by
    refine ⟨("🔧 " ++ pyCapitalize t ++ ":\n").data, ?_⟩
    have h2 := congrArg String.data he
    rw [data_append] at h2
    exact h2
  have hm := lookup_pair_mem h
  simp [quick_reference] at hm
  rcases hm with ⟨h1, h2⟩ | ⟨h1, h2⟩ | ⟨h1, h2⟩ | ⟨h1, h2⟩ | ⟨h1, h2⟩ |
    ⟨h1, h2⟩ | ⟨h1, h2⟩ | ⟨h1, h2⟩ | ⟨h1, h2⟩ <;>
    (subst h2; exact absurd (List.isSuffixOf_iff_suffix.mpr hsuf) (by decide))

theorem qhCase_found {t snip : String}
    (h : List.lookup (pyLower (pyStrip t)) quick_reference = some snip) :
    qhCase ("🔧 " ++ pyCapitalize t ++ ":\n" ++ snip) = QhCase.found := by
  unfold qhCase
  rw [if_neg (found_ne_topicList h)]
  rfl

theorem qhCase_notfound (topic : String) :
    qhCase ("❌ Topic '" ++ topic ++ "' not found. Available: " ++
        String.intercalate ", " (quick_reference.map Prod.fst)) =
      QhCase.notFound := by
  unfold qhCase
  have hne : ("❌ Topic '" ++ topic ++ "' not found. Available: " ++
      String.intercalate ", " (quick_reference.map Prod.fst)) ≠ topicListText :=
    str_head_ne '❌' '🔧' rfl rfl (by decide)
  rw [if_neg hne]
  rfl

/-! ### Claim theorems -/

/-- C1: the claim says `append_to_file` on a missing file returns a
"not found" error and creates no file.  The code contradicts its own
docstring ("Appends content to the end of an existing file") and its dead
`except FileNotFoundError` handler: `open(filename, 'a')` creates the
missing file, appends `"\n" + content`, and reports success.  This theorem
evaluates the embedded handler at the claim's own example input. -/
theorem C1_append_creates_missing_file :
    append_to_file [] "missing.txt" "data" none =
      ("✅ Success: Content appended to 'missing.txt'.",
       [("missing.txt", "\ndata")]) := by
  decide

/-- C2 counterexample: with `overwrite="true"` on a file that does not
exist, the success text claims the file "was overwritten" even though the
call was a creation (the directory was empty), so the reported action word
does not reflect whether the file existed before the call. -/
theorem C2_counterexample :
    (write_file [] "new.txt" "x" "true" none).fst =
        "✅ Success: File 'new.txt' was overwritten." ∧
      List.lookup "new.txt" ([] : FS) = none := by
  exact ⟨rfl, rfl⟩

/-- C2 (amended): on every successful write the success text is a function
of the filename and the parsed overwrite flag alone — the action word is
"overwritten" iff the flag parsed true and "created" otherwise; the
right-hand side does not mention the directory, so prior existence of the
file cannot influence the reported action. -/
theorem C2_success_action_word_follows_flag (fs : FS)
    (filename content overwrite : String)
    (h1 : ¬ pyStrip filename = "")
    (h2 : ((List.lookup filename fs).isSome && !(shouldOverwrite overwrite))
        = false) :
    (write_file fs filename content overwrite none).fst =
      "✅ Success: File '" ++ filename ++ "'" ++
      (if endswith filename ".scad" then " 📐 OpenSCAD" else "") ++ " was " ++
      (if shouldOverwrite overwrite then "overwritten" else "created") ++
      "." := by
  unfold write_file
  rw [if_neg h1, if_neg (by rw [h2]; simp)]

/-- C2 witness: the amended theorem evaluated at a concrete input. -/
theorem C2_success_action_word_follows_flag_witness :
    (write_file [] "new.txt" "x" "true" none).fst =
      "✅ Success: File '" ++ "new.txt" ++ "'" ++
      (if endswith "new.txt" ".scad" then " 📐 OpenSCAD" else "") ++ " was " ++
      (if shouldOverwrite "true" then "overwritten" else "created") ++ "." :=
  C2_success_action_word_follows_flag [] "new.txt" "x" "true" (by decide)
    (by decide)

/-- C3 counterexample: a file named `" "` (one space) can exist, yet
`write_file` on it with overwrite parsed false returns the blank-filename
error (marker `❌`), not a warning — the blank check fires before the
existence check.  The directory is left unchanged. -/
theorem C3_counterexample :
    write_file [(" ", "x")] " " "y" "false" none =
        ("❌ Error: Filename is required.", [(" ", "x")]) ∧
      (List.lookup " " [((" " : String), ("x" : String))]).isSome = true ∧
      shouldOverwrite "false" = false ∧
      markerOf (write_file [(" ", "x")] " " "y" "false" none).fst =
        Outcome.err := by
  exact ⟨rfl, rfl, rfl, rfl⟩

/-- C3 (amended): for every filename that is non-blank after trimming and
already exists, `write_file` with the overwrite flag parsed false returns
the warning text and leaves the directory — hence the content of the
file — unchanged, for every content and every fault. -/
theorem C3_existing_file_noclobber (fs : FS)
    (filename content overwrite : String) (fault : Option String)
    (h1 : ¬ pyStrip filename = "")
    (h2 : (List.lookup filename fs).isSome = true)
    (h3 : shouldOverwrite overwrite = false) :
    write_file fs filename content overwrite fault =
      ("⚠️ Error: File '" ++ filename ++
       "' already exists. To overwrite, set overwrite to 'true'.", fs) := by
  unfold write_file
  rw [if_neg h1, if_pos (by rw [h2, h3]; rfl)]

/-- C3 witness: the amended theorem evaluated at a concrete input. -/
theorem C3_existing_file_noclobber_witness :
    write_file [("f", "x")] "f" "y" "false" none =
      ("⚠️ Error: File '" ++ "f" ++
       "' already exists. To overwrite, set overwrite to 'true'.",
       [("f", "x")]) :=
  C3_existing_file_noclobber [("f", "x")] "f" "y" "false" none (by decide)
    (by decide) (by decide)

/-- C7 counterexample: `" true "` is parsed as true (the code strips
before comparing) although it is not case-insensitively equal to the
literal `"true"`. -/
theorem C7_counterexample :
    shouldOverwrite " true " = true ∧
      specCaseInsensitiveEq " true " "true" = false := by
  exact ⟨rfl, rfl⟩

/-- C7 (amended): the parsed overwrite flag is true iff the argument,
after trimming whitespace, compares case-insensitively equal to the
literal "true"; the empty default is treated as false. -/
theorem C7_flag_iff_trimmed_case_insensitive_true (overwrite : String) :
    shouldOverwrite overwrite =
        specCaseInsensitiveEq (pyStrip overwrite) "true" ∧
      shouldOverwrite "" = false := by
  constructor
  · show (pyLower (pyStrip overwrite) == "true") =
        (pyLower (pyStrip overwrite) == pyLower "true")
    rfl
  · rfl

/-- C10: the primary-file test is the case-sensitive suffix check
`endswith · ".scad"` in every operation: a name ending in ".SCAD" never
ends in ".scad", `list_files` places "A.SCAD" in the other-files group,
and `read_file` / `write_file` / `append_to_file` attach no 📐 OpenSCAD
tag to it, while the exact lowercase suffix does receive the tag. -/
theorem C10_primary_suffix_case_sensitive :
    (∀ name : String,
        endswith name ".SCAD" = true → endswith name ".scad" = false) ∧
      list_files [("A.SCAD", "")] "" none =
        "📂 Files in directory:\n\n📄 Other Files:\n- A.SCAD" ∧
      read_file [("A.SCAD", "x")] "A.SCAD" none =
        "📄 File: A.SCAD (1 characters)\n---\nx\n---" ∧
      (write_file [] "A.SCAD" "x" "false" none).fst =
        "✅ Success: File 'A.SCAD' was created." ∧
      (append_to_file [("A.SCAD", "x")] "A.SCAD" "y" none).fst =
        "✅ Success: Content appended to 'A.SCAD'." ∧
      (write_file [] "a.scad" "x" "false" none).fst =
        "✅ Success: File 'a.scad' 📐 OpenSCAD was created." := by
  refine ⟨?_, by decide, by decide, by decide, by decide, by decide⟩
  intro name h
  unfold endswith at h ⊢
  rw [List.isSuffixOf_iff_suffix] at h
  by_contra hc
  rw [Bool.not_eq_false, List.isSuffixOf_iff_suffix] at hc
  have h1 := getLast?_of_suffix h (by decide)
  have h2 := getLast?_of_suffix hc (by decide)
  rw [h1] at h2
  exact absurd h2 (by decide)

/-- C10 witness: the general direction applied at the concrete name. -/
theorem C10_primary_suffix_case_sensitive_witness :
    endswith "A.SCAD" ".scad" = false :=
  C10_primary_suffix_case_sensitive.1 "A.SCAD" (by decide)

/-- C4 counterexample: the key "syntax" occurs twice in the menu returned
by `get_scad_reference ""` (once as the bullet key and once inside
"Language syntax and rules"), so no key occurs "exactly once" there. -/
theorem C4_counterexample :
    countOccs "syntax".data (get_scad_reference "").data = 2 := by
  set_option maxRecDepth 40000 in decide

/-- C4 (amended): the menu returned by `get_scad_reference ""` contains
every key of the closed category enumeration at least once, and exactly
once as the key of a bullet entry of the form `• key - `; plain substring
occurrences are not unique because several keys also appear inside the
hand-written one-line descriptions. -/
theorem C4_menu_lists_every_key :
    ∀ k ∈ SCAD_CATEGORIES.map Prod.fst,
      1 ≤ countOccs k.data (get_scad_reference "").data ∧
        countOccs ("• " ++ k ++ " - ").data (get_scad_reference "").data
          = 1 := by
  set_option maxRecDepth 100000 in decide

/-- C4 witness: the amended theorem evaluated at the key "syntax". -/
theorem C4_menu_lists_every_key_witness :
    1 ≤ countOccs "syntax".data (get_scad_reference "").data ∧
      countOccs ("• " ++ "syntax" ++ " - ").data
        (get_scad_reference "").data = 1 :=
  C4_menu_lists_every_key "syntax" (by decide)

/-- C5 counterexample: for the filter `" scad"` the code interpolates the
raw, untrimmed filter into the glob pattern, producing `*. scad`, which
fails to match `a.scad` even though the trimmed pattern `*.scad` would
match it, so the claim's "ext the trimmed filter" is false. -/
theorem C5_counterexample :
    list_files [("a.scad", "x")] " scad" none =
        "📂 No files found with pattern '*. scad'." ∧
      globMatch ("*." ++ pyStrip " scad").data "a.scad".data = true ∧
      globPattern " scad" ≠ "*." ++ pyStrip " scad" := by
  exact ⟨by decide, by decide, by decide⟩

/-- C5 (amended): `list_files` builds the glob pattern `*.<raw filter>`
when the filter is non-empty after trimming and `*` otherwise; when the
pattern matches nothing the result is the "no files found" message; and
every matched name lands in exactly one of the two groups, the `.scad`
suffixed names in the primary group and all others in the other group. -/
theorem C5_list_files_glob_and_partition (fs : FS) (file_extension : String) :
    globPattern file_extension =
        (if pyStrip file_extension = "" then "*"
         else "*." ++ file_extension) ∧
      (globExpand (globPattern file_extension) (fs.map Prod.fst) = [] →
        list_files fs file_extension none =
          "📂 No files found with pattern '" ++ globPattern file_extension ++
            "'.") ∧
      ∀ f ∈ globExpand (globPattern file_extension) (fs.map Prod.fst),
        (endswith f ".scad" = true →
          f ∈ scadFilesOf
              (globExpand (globPattern file_extension) (fs.map Prod.fst)) ∧
          f ∉ otherFilesOf
              (globExpand (globPattern file_extension) (fs.map Prod.fst))) ∧
        (endswith f ".scad" = false →
          f ∉ scadFilesOf
              (globExpand (globPattern file_extension) (fs.map Prod.fst)) ∧
          f ∈ otherFilesOf
              (globExpand (globPattern file_extension) (fs.map Prod.fst))) := by
  refine ⟨rfl, ?_, ?_⟩
  · intro h
    unfold list_files
    rw [h]
  · intro f hf
    constructor
    · intro he
      refine ⟨List.mem_filter.mpr ⟨hf, by rw [he]⟩, ?_⟩
      intro hmem
      have h2 := (List.mem_filter.mp hmem).2
      rw [he] at h2
      simp at h2
    · intro he
      refine ⟨?_, List.mem_filter.mpr ⟨hf, by rw [he]; rfl⟩⟩
      intro hmem
      have h2 := (List.mem_filter.mp hmem).2
      rw [he] at h2
      simp at h2

/-- C5 witness: the partition applied to the spec's own example — after
creating `a.scad` and `b.txt`, `listFiles("scad")` puts `a.scad` in the
primary group and not in the other group. -/
theorem C5_list_files_glob_and_partition_witness :
    "a.scad" ∈ scadFilesOf (globExpand (globPattern "scad")
        (([("a.scad", "x"), ("b.txt", "y")] : FS).map Prod.fst)) ∧
      "a.scad" ∉ otherFilesOf (globExpand (globPattern "scad")
        (([("a.scad", "x"), ("b.txt", "y")] : FS).map Prod.fst)) :=
  ((C5_list_files_glob_and_partition [("a.scad", "x"), ("b.txt", "y")]
      "scad").2.2 "a.scad" (by decide)).1 (by decide)

/-- C9: every quick-tier key is already a key of `SCAD_CATEGORIES`, so it
is served by the first (detailed) branch of `get_scad_reference` with the
uppercased-key fallback title: the result is `KEY.upper() + "\n" + body`.
The dedicated quick-tier branch (header `🔧 KEY Functions:`) is never
taken: no output of `get_scad_reference` ever starts with `🔧`. -/
theorem C9_quick_keys_served_by_detailed_branch :
    get_scad_reference "3d" =
        "3D\n3D Primitives: cube(), sphere(), cylinder(), polyhedron()" ∧
      get_scad_reference "2d" =
        "2D\n2D Primitives: circle(), square(), polygon(), text()" ∧
      get_scad_reference "transformations" =
        "TRANSFORMATIONS\nTransformations: translate(), rotate(), scale(), mirror(), resize()" ∧
      get_scad_reference "boolean" =
        "BOOLEAN\nBoolean Operations: union(), difference(), intersection()" ∧
      get_scad_reference "extrusions" =
        "EXTRUSIONS\nExtrusions: linear_extrude(), rotate_extrude()" ∧
      (quickTierKeys.all fun k => (List.lookup k SCAD_CATEGORIES).isSome)
        = true ∧
      ∀ category : String,
        ("🔧".data.isPrefixOf (get_scad_reference category).data) = false := by
  refine ⟨by decide, by decide, by decide, by decide, by decide, by decide, ?_⟩
  intro category
  unfold get_scad_reference
  cases h : List.lookup (pyLower (pyStrip category)) SCAD_CATEGORIES with
  | some body => exact toolhead_title_branch h
  | none =>
      cases hq : quickTierKeys.contains (pyLower (pyStrip category)) with
      | true =>
          exfalso
          have hmem : pyLower (pyStrip category) ∈ quickTierKeys :=
            List.elem_iff.mp hq
          have h5 : ∀ k ∈ quickTierKeys,
              (List.lookup k SCAD_CATEGORIES).isSome = true := by decide
          have h6 := h5 _ hmem
          rw [h] at h6
          simp at h6
      | false =>
          rw [if_neg (by simp [hq])]
          by_cases he : pyLower (pyStrip category) = ""
          · rw [if_pos he]; rfl
          · rw [if_neg he]; rfl

/-- C8: every response of every operation is classified correctly by its
marker prefix alone — `markerOf` inspects only the leading character
(`❌` error, `⚠` warning, anything else non-failure) and recovers, for
every input, directory state and injected I/O fault, exactly the outcome
of the branch the handler took: validation failures, missing targets and
I/O faults are `err`, the refused overwrite is `warn`, everything else
(including the guided "no files found" and menu responses) is `ok`.  In
particular every expected-failure response starts with the error marker
and no success or warning response does, so the three outcomes have
distinct prefixes. -/
theorem C8_marker_classifies_every_response :
    (∀ (fs : FS) (file_extension : String) (fault : Option String),
        markerOf (list_files fs file_extension fault) =
          match fault with
          | some _ => Outcome.err
          | none => Outcome.ok) ∧
      (∀ (fs : FS) (filename : String) (fault : Option String),
        markerOf (read_file fs filename fault) =
          if pyStrip filename = "" then Outcome.err
          else
            match List.lookup filename fs with
            | none => Outcome.err
            | some _ =>
              match fault with
              | some _ => Outcome.err
              | none => Outcome.ok) ∧
      (∀ (fs : FS) (filename content overwrite : String)
          (fault : Option String),
        markerOf (write_file fs filename content overwrite fault).fst =
          if pyStrip filename = "" then Outcome.err
          else if (List.lookup filename fs).isSome &&
              !(shouldOverwrite overwrite) then Outcome.warn
          else
            match fault with
            | some _ => Outcome.err
            | none => Outcome.ok) ∧
      (∀ (fs : FS) (filename content : String) (fault : Option String),
        markerOf (append_to_file fs filename content fault).fst =
          if pyStrip filename = "" ∨ pyStrip content = "" then Outcome.err
          else
            match fault with
            | some _ => Outcome.err
            | none => Outcome.ok) ∧
      markerOf get_scad_syntax = Outcome.ok ∧
      (∀ category : String,
        markerOf (get_scad_reference category) =
          match List.lookup (pyLower (pyStrip category)) SCAD_CATEGORIES with
          | some _ => Outcome.ok
          | none =>
            if quickTierKeys.contains (pyLower (pyStrip category)) then
              Outcome.ok
            else if pyLower (pyStrip category) = "" then Outcome.ok
            else Outcome.err) ∧
      (∀ topic : String,
        markerOf (scad_quick_help topic) =
          if pyStrip topic = "" then Outcome.ok
          else
            match List.lookup (pyLower (pyStrip topic)) quick_reference with
            | some _ => Outcome.ok
            | none => Outcome.err) := by
  refine ⟨?_, ?_, ?_, ?_, rfl, ?_, ?_⟩
  · intro fs file_extension fault
    cases fault with
    | some e => rfl
    | none =>
        unfold list_files
        cases hfiles : globExpand (globPattern file_extension)
            (fs.map Prod.fst) with
        | nil => rfl
        | cons a rest =>
            dsimp only
            split <;> split <;> rfl
  · intro fs filename fault
    unfold read_file
    by_cases h1 : pyStrip filename = ""
    · simp only [if_pos h1]; rfl
    · simp only [if_neg h1]
      cases List.lookup filename fs with
      | none => rfl
      | some content =>
          cases fault with
          | some e => rfl
          | none => rfl
  · intro fs filename content overwrite fault
    unfold write_file
    by_cases h1 : pyStrip filename = ""
    · simp only [if_pos h1]; rfl
    · simp only [if_neg h1]
      cases h2 : (List.lookup filename fs).isSome &&
          !(shouldOverwrite overwrite) with
      | true => rfl
      | false =>
          cases fault with
          | some e => rfl
          | none => rfl
  · intro fs filename content fault
    unfold append_to_file
    by_cases h1 : pyStrip filename = "" ∨ pyStrip content = ""
    · simp only [if_pos h1]; rfl
    · simp only [if_neg h1]
      cases fault with
      | some e => rfl
      | none => rfl
  · intro category
    unfold get_scad_reference
    cases h : List.lookup (pyLower (pyStrip category)) SCAD_CATEGORIES with
    | some body => exact markerOf_title_branch h
    | none =>
        cases hq : quickTierKeys.contains (pyLower (pyStrip category)) with
        | true => rfl
        | false =>
            by_cases he : pyLower (pyStrip category) = ""
            · simp only [if_pos he]; rfl
            · simp only [if_neg he]; rfl
  · intro topic
    unfold scad_quick_help
    by_cases h0 : pyStrip topic = ""
    · simp only [if_pos h0]; rfl
    · simp only [if_neg h0]
      cases List.lookup (pyLower (pyStrip topic)) quick_reference with
      | some s => rfl
      | none => rfl

/-- C6 counterexample: `scad_quick_help` is not invariant under
normalization: on `" cube"` the match label is
`" cube".capitalize() = " cube"`, while on the normalized `"cube"` it is
`"Cube"`, so the two full texts differ. -/
theorem C6_counterexample :
    scad_quick_help " cube" ≠ scad_quick_help (pyLower (pyStrip " cube")) ∧
      pyLower (pyStrip " cube") = "cube" := by
  exact ⟨by decide, rfl⟩

/-- C6 (amended): the outcome class of `scad_quick_help` — topic list,
match, or not-found, as classified from the response text by `qhCase` —
depends only on the trimmed lowercased input, and on a match both the raw
and the normalized call deliver the normalized key's snippet (as a suffix
of the response); the full text is not invariant, because the match label
capitalizes the raw topic and the not-found message echoes it. -/
theorem C6_quick_help_outcome_depends_on_normalized_input (topic : String) :
    qhCase (scad_quick_help topic) =
        qhCase (scad_quick_help (pyLower (pyStrip topic))) ∧
      ∀ snip,
        List.lookup (pyLower (pyStrip topic)) quick_reference = some snip →
        snip.data <:+ (scad_quick_help topic).data ∧
        snip.data <:+ (scad_quick_help (pyLower (pyStrip topic))).data := by
  by_cases h0 : pyStrip topic = ""
  · have hz : pyLower (pyStrip topic) = "" := by rw [h0]; rfl
    constructor
    · rw [hz]
      unfold scad_quick_help
      rw [if_pos h0, if_pos (show pyStrip "" = "" from rfl)]
    · intro snip hsn
      rw [hz] at hsn
      have hnone : List.lookup "" quick_reference = (none : Option String) := by
        decide
      rw [hnone] at hsn
      exact Option.noConfusion hsn
  · have hne := normalized_ne_empty h0
    have hfix := normalized_lower_fixed topic
    constructor
    · unfold scad_quick_help
      rw [if_neg h0, if_neg hne, hfix]
      cases hq : List.lookup (pyLower (pyStrip topic)) quick_reference with
      | some snip =>
          have hq2 : List.lookup
              (pyLower (pyStrip (pyLower (pyStrip topic)))) quick_reference =
                some snip := by rw [hfix]; exact hq
          rw [qhCase_found hq, qhCase_found hq2]
      | none =>
          rw [qhCase_notfound topic, qhCase_notfound (pyLower (pyStrip topic))]
    · intro snip hsn
      constructor
      · unfold scad_quick_help
        rw [if_neg h0, hsn]
        exact ⟨_, (data_append _ _).symm⟩
      · unfold scad_quick_help
        rw [if_neg hne, hfix, hsn]
        exact ⟨_, (data_append _ _).symm⟩

/-- C6 witness: the snippet clause applied at `" CUBE "`, whose normalized
form is the key `"cube"`. -/
theorem C6_quick_help_outcome_depends_on_normalized_input_witness :
    ("cube(size, center) - Creates cube/rectangular prism\nExample: cube([10,20,5], center=true);").data
      <:+ (scad_quick_help " CUBE ").data :=
  ((C6_quick_help_outcome_depends_on_normalized_input " CUBE ").2 _
    (by decide)).1

end Scad
